import Mathlib

/-!
Verification of the `gcp_bigquery_stream` output sink (output/bq-stream.go).

The development shallowly embeds the sink's connection lifecycle and the
resilient batch-write protocol: `Connect`, `WriteBatch` / `writeBatchWithRetry`,
`isReconnectableError`, `reconnect` and `Close`.  Remote calls (client
construction, metadata lookups, stream creation, append, acknowledgement) are
modelled as oracles supplied through environment records; everything else is
translated statement by statement from the Go source.  Locking is modelled by
treating each lock-guarded section as one atomic state transformation.
-/

/-- Substring helper: does the list start with the pattern?  Models the prefix
check underlying Go's strings.Contains. -/
def matchesAt : List Char → List Char → Bool
  | _, [] => true
  | [], _ :: _ => false
  | a :: s, b :: p => a == b && matchesAt s p

/-- Substring search on character lists. -/
def containsSub : List Char → List Char → Bool
  | [], p => p.isEmpty
  | c :: s, p => matchesAt (c :: s) p || containsSub s p

/-- Model of Go's strings.Contains on strings. -/
def strContains (s pat : String) : Bool :=
  containsSub s.toList pat.toList

/-- gRPC status codes (google.golang.org/grpc/codes). -/
inductive Code where
  | ok
  | cancelled
  | unknown
  | invalidArgument
  | deadlineExceeded
  | notFound
  | alreadyExists
  | permissionDenied
  | resourceExhausted
  | failedPrecondition
  | aborted
  | outOfRange
  | unimplemented
  | internal
  | unavailable
  | dataLoss
  | unauthenticated
  deriving DecidableEq, Repr

/-- Model of a Go error value, as observed by the sink's classification code:
`grpcCode` is `some c` exactly when `status.FromError(err)` reports ok with
code `c`; `apiWrappedCode` is `some c` exactly when `apierror.FromError(err)`
reports ok, `Unwrap()` is non-nil, and `status.FromError` on the unwrapped
cause reports ok with code `c`; `googleapiCode` is the HTTP code when the
error is a `*googleapi.Error`; `msg` is `err.Error()`. -/
structure GoError where
  grpcCode : Option Code
  apiWrappedCode : Option Code
  googleapiCode : Option Nat
  msg : String
  deriving DecidableEq, Repr

/-- Model of `fmt.Errorf("prefixText: %w", err)`: the message is prefixed and
the structured information of the cause stays reachable through the chain. -/
def wrapErr (p : String) (e : GoError) : GoError :=
  { e with msg := p ++ e.msg }

/-- Model of `fmt.Errorf` with `%v` only: a fresh error with no wrapped cause. -/
def plainErr (m : String) : GoError :=
  { grpcCode := none, apiWrappedCode := none, googleapiCode := none, msg := m }

/-- Embeds `hasStatusCode` (bq-stream.go lines 688-693): the error is a
`*googleapi.Error` whose `Code` equals the given HTTP status code. -/
def hasStatusCode (e : GoError) (code : Nat) : Bool :=
  match e.googleapiCode with
  | some c => c == code
  | none => false

/-- The four status codes of the switch in `isReconnectableError`
(bq-stream.go lines 826-839): aborted, unavailable, internal,
deadline-exceeded. -/
def isRetriableCode (c : Code) : Bool :=
  c == Code.aborted || c == Code.unavailable || c == Code.internal ||
    c == Code.deadlineExceeded

/-- Retriable check on an optional status code: false when `status.FromError`
did not report ok. -/
def optCodeRetriable : Option Code → Bool
  | some c => isRetriableCode c
  | none => false

/-- Session-TTL-expiry pattern, first half (bq-stream.go line 857). -/
def ttlPat1 : String := "connection TTL"

/-- Session-TTL-expiry pattern, second half (bq-stream.go line 857). -/
def ttlPat2 : String := "exceeded"

/-- Server-shutdown pattern (bq-stream.go line 860). -/
def shutdownPat : String := "server_shutting_down"

/-- Embeds `isReconnectableError` (bq-stream.go lines 819-865).  The Go code
is a chain of early `return true`s over pure tests, which is equivalent to the
disjunction below: the gRPC status switch, the structured API error's wrapped
cause, and the two textual fallback patterns.  `none` models the `err == nil`
guard. -/
def isReconnectableError : Option GoError → Bool
  | none => false
  | some e =>
    optCodeRetriable e.grpcCode ||
    optCodeRetriable e.apiWrappedCode ||
    (strContains e.msg ttlPat1 && strContains e.msg ttlPat2) ||
    strContains e.msg shutdownPat

/-- The spec's description of reconnect-worthiness, written from the spec's
words for comparison with `isReconnectableError`: a transport-status error
carrying one of the four codes, or a structured API error whose wrapped cause
carries one of them, or the session-TTL-expiry pattern, or the server-shutdown
pattern. -/
def specReconnectWorthy (e : GoError) : Prop :=
  (∃ c, e.grpcCode = some c ∧
      (c = Code.aborted ∨ c = Code.unavailable ∨ c = Code.internal ∨
        c = Code.deadlineExceeded)) ∨
  (∃ c, e.apiWrappedCode = some c ∧
      (c = Code.aborted ∨ c = Code.unavailable ∨ c = Code.internal ∨
        c = Code.deadlineExceeded)) ∨
  (strContains e.msg ttlPat1 = true ∧ strContains e.msg ttlPat2 = true) ∨
  strContains e.msg shutdownPat = true

theorem isRetriableCode_iff (c : Code) :
    isRetriableCode c = true ↔
      (c = Code.aborted ∨ c = Code.unavailable ∨ c = Code.internal ∨
        c = Code.deadlineExceeded) := by
  cases c <;> simp [isRetriableCode]

theorem isReconnectableError_iff_spec (e : GoError) :
    isReconnectableError (some e) = true ↔ specReconnectWorthy e := by
  unfold isReconnectableError specReconnectWorthy
  simp only [Bool.or_eq_true, Bool.and_eq_true]
  constructor
  · rintro (((h | h) | h) | h)
    · left
      cases hg : e.grpcCode with
      | none => rw [hg] at h; exact absurd h (by simp [optCodeRetriable])
      | some c =>
        rw [hg] at h
        exact ⟨c, rfl, (isRetriableCode_iff c).mp h⟩
    · right; left
      cases hg : e.apiWrappedCode with
      | none => rw [hg] at h; exact absurd h (by simp [optCodeRetriable])
      | some c =>
        rw [hg] at h
        exact ⟨c, rfl, (isRetriableCode_iff c).mp h⟩
    · right; right; left; exact h
    · right; right; right; exact h
  · rintro (⟨c, hc, hmem⟩ | ⟨c, hc, hmem⟩ | h | h)
    · left; left; left
      rw [hc]
      exact (isRetriableCode_iff c).mpr hmem
    · left; left; right
      rw [hc]
      exact (isRetriableCode_iff c).mpr hmem
    · left; right; exact h
    · right; exact h

/-- A derived row schema descriptor (the pair md/dp of `getDescriptor` is
modelled by two values of this type), abstracted to an identifier. -/
abbrev Schema := Nat

/-- Raw message payload bytes. -/
abbrev Bytes := List Nat

/-- A serialized protobuf row. -/
abbrev Row := List Nat

/-- A dynamicpb message after JSON unmarshalling. -/
abbrev PbMsg := List Nat

/-- A managed write stream handle: bound to the schema descriptor it was
opened with (`WithSchemaDescriptor`). -/
structure MWStream where
  schema : Option Schema
  deriving DecidableEq, Repr

/-- The sink's lock-guarded session state: the fields of `gcpBigQueryOutput`
(bq-stream.go lines 576-592) that are mutated after construction.  Handles
are identifiers; `none` models a nil pointer. -/
structure SinkState where
  client : Option Nat
  mwClient : Option Nat
  managedStream : Option MWStream
  messageDescriptor : Option Schema
  descriptorProto : Option Schema
  deriving DecidableEq, Repr

/-- Observable events of a run, used to count side effects: conversion passes,
append calls (with the rows handed to `AppendRows`), reconnect attempts,
stream/client closes, stream opens (with the schema bound), and metadata-client
invocations. -/
inductive Event where
  | convertPass
  | appendCall (rows : List Row)
  | reconnectCall
  | streamClosed
  | streamOpened (schema : Option Schema)
  | clientClosed
  | mwClientClosed
  | metadataFetch
  deriving DecidableEq, Repr

instance exceptDecEq {ε α : Type} [DecidableEq ε] [DecidableEq α] :
    DecidableEq (Except ε α) := fun x y =>
  match x, y with
  | Except.ok a, Except.ok b =>
    if h : a = b then isTrue (by rw [h])
    else isFalse (fun hh => h (Except.ok.inj hh))
  | Except.ok _, Except.error _ => isFalse (fun hh => Except.noConfusion hh)
  | Except.error _, Except.ok _ => isFalse (fun hh => Except.noConfusion hh)
  | Except.error e, Except.error f =>
    if h : e = f then isTrue (by rw [h])
    else isFalse (fun hh => h (Except.error.inj hh))

/-- One inbound message of a batch: `bytes` is the outcome of `msg.AsBytes()`. -/
structure Msg where
  bytes : Except GoError Bytes
  deriving DecidableEq, Repr

/-- Oracle for the two conversion library calls: `g.umo.Unmarshal` (JSON to
dynamicpb against the cached message descriptor, with the configured
partial/unknown tolerance) and `proto.Marshal`. -/
structure ConvEnv where
  unmarshal : Bytes → Except GoError PbMsg
  marshal : PbMsg → Except GoError Row

/-- Embeds the per-message conversion pipeline of the batch loop
(bq-stream.go lines 742-758): byte extraction, JSON-to-proto unmarshal,
proto marshal; the first failing step yields the per-item error. -/
def convertOne (env : ConvEnv) (m : Msg) : Except GoError Row :=
  match m.bytes with
  | Except.error e => Except.error e
  | Except.ok bs =>
    match env.unmarshal bs with
    | Except.error e => Except.error e
    | Except.ok pm =>
      match env.marshal pm with
      | Except.error e => Except.error e
      | Except.ok r => Except.ok r

/-- Embeds the conversion loop of `writeBatchWithRetry` (bq-stream.go lines
740-759): walks the batch from index `i`, accumulating the per-item errors
(`setErr(i, err)` on the `batchErr` accumulator, keyed by original index, in
index order) and the successfully converted rows in input order. -/
def convertLoop (env : ConvEnv) : List Msg → Nat → List (Nat × GoError) × List Row
  | [], _ => ([], [])
  | m :: ms, i =>
    let rest := convertLoop env ms (i + 1)
    match convertOne env m with
    | Except.error e => ((i, e) :: rest.1, rest.2)
    | Except.ok row => (rest.1, row :: rest.2)

/-- Outcome of one append attempt: `AppendRows` itself errors, or
`GetResult` errors, or the acknowledgement succeeds with a stream offset. -/
inductive Outcome where
  | appendFail (e : GoError)
  | ackFail (e : GoError)
  | ackOk (offset : Int)
  deriving Repr

/-- The error carried by a failing attempt outcome, if any. -/
def outcomeErr : Outcome → Option GoError
  | Outcome.appendFail e => some e
  | Outcome.ackFail e => some e
  | Outcome.ackOk _ => none

/-- Environment of one `WriteBatch` call: the conversion oracle, the outcome
of the append attempt performed at each retry count, and the outcome of the
`NewManagedStream` call of the reconnect performed at each retry count. -/
structure Env where
  conv : ConvEnv
  attempts : Nat → Outcome
  newStream : Nat → Except GoError Unit

/-- `managedwriter.NoStreamOffset`: the sentinel meaning no explicit offset. -/
def NoStreamOffset : Int := -1

/-- Retry ceiling of `writeBatchWithRetry` (bq-stream.go line 723). -/
def maxRetries : Nat := 2

/-- Result of a batch write, one constructor per return site of
`writeBatchWithRetry`: nil success (lines 766/815), `service.ErrNotConnected`
(line 729), an append/acknowledgement error returned as-is (lines 785/804),
the reconnect-failure wrap (lines 779/798, `fmt.Errorf` around the error that
`reconnect` returned), the offset-mismatch error (line 807), and the
accumulated per-item batch error (lines 764/811). -/
inductive WriteResult where
  | success
  | notConnected
  | appendError (e : GoError)
  | reconnectFailed (e : GoError)
  | offsetMismatch (got : Int)
  | batchError (errs : List (Nat × GoError))
  deriving DecidableEq, Repr

/-- Message of the `fmt.Errorf` wrap inside `reconnect` (bq-stream.go
line 918). -/
def newStreamFailMsg : String := "error creating new BigQuery managed stream: "

/-- Embeds `reconnect` (bq-stream.go lines 897-925): under the exclusive lock,
close and nil the existing stream, wait the fixed cool-down (real time is not
modelled), then open a new managed stream against the same target bound to the
cached `g.descriptorProto`; on success install it, on failure return the
wrapped error (leaving the stream field nil). -/
def reconnect (res : Except GoError Unit) (st : SinkState) :
    Option GoError × SinkState × List Event :=
  let st1 : SinkState := { st with managedStream := none }
  let tr1 : List Event :=
    match st.managedStream with
    | some _ => [Event.streamClosed]
    | none => []
  match res with
  | Except.error e => (some (wrapErr newStreamFailMsg e), st1, tr1)
  | Except.ok _ =>
    (none, { st1 with managedStream := some ⟨st.descriptorProto⟩ },
      tr1 ++ [Event.streamOpened st.descriptorProto])

/-- Body of one `writeBatchWithRetry` call (bq-stream.go lines 722-816),
parameterized by the continuation used on retry: `cont` is `some k` when the
guard `retryCount < maxRetries` holds, in which case `k` is the recursive call
at `retryCount + 1`, and `none` when the retry ceiling is reached.  The body:
read the stream handle under the shared lock and fail not-connected when nil;
convert the batch, accumulating the per-item errors and the surviving rows;
skip the append when no row survived, returning the accumulated batch error
(or nil); otherwise append, and on an append or acknowledgement failure
classified reconnect-worthy while the guard holds, reconnect and continue
(surfacing the wrapped reconnect failure if the reconnect itself fails);
validate the acknowledged offset against the sentinel; finally merge the
accumulated per-item errors. -/
def writeBatchBody (env : Env) (batch : List Msg) (retryCount : Nat)
    (cont : Option (SinkState → WriteResult × SinkState × List Event))
    (st : SinkState) : WriteResult × SinkState × List Event :=
  match st.managedStream with
  | none => (WriteResult.notConnected, st, [])
  | some _ =>
    let conv := convertLoop env.conv batch 0
    let errs := conv.1
    let rows := conv.2
    if rows = [] then
      if errs = [] then (WriteResult.success, st, [Event.convertPass])
      else (WriteResult.batchError errs, st, [Event.convertPass])
    else
      match env.attempts retryCount with
      | Outcome.appendFail e =>
        match cont, isReconnectableError (some e) with
        | some k, true =>
          match reconnect (env.newStream retryCount) st with
          | (some re, st', tr') =>
            (WriteResult.reconnectFailed re, st',
              Event.convertPass :: Event.appendCall rows ::
                Event.reconnectCall :: tr')
          | (none, st', tr') =>
            let sub := k st'
            (sub.1, sub.2.1,
              Event.convertPass :: Event.appendCall rows ::
                Event.reconnectCall :: tr' ++ sub.2.2)
        | _, _ =>
          (WriteResult.appendError e, st,
            [Event.convertPass, Event.appendCall rows])
      | Outcome.ackFail e =>
        match cont, isReconnectableError (some e) with
        | some k, true =>
          match reconnect (env.newStream retryCount) st with
          | (some re, st', tr') =>
            (WriteResult.reconnectFailed re, st',
              Event.convertPass :: Event.appendCall rows ::
                Event.reconnectCall :: tr')
          | (none, st', tr') =>
            let sub := k st'
            (sub.1, sub.2.1,
              Event.convertPass :: Event.appendCall rows ::
                Event.reconnectCall :: tr' ++ sub.2.2)
        | _, _ =>
          (WriteResult.appendError e, st,
            [Event.convertPass, Event.appendCall rows])
      | Outcome.ackOk o =>
        if o ≠ NoStreamOffset then
          (WriteResult.offsetMismatch o, st,
            [Event.convertPass, Event.appendCall rows])
        else if errs = [] then
          (WriteResult.success, st,
            [Event.convertPass, Event.appendCall rows])
        else
          (WriteResult.batchError errs, st,
            [Event.convertPass, Event.appendCall rows])

/-- Embeds `writeBatchWithRetry` (bq-stream.go lines 722-816), with the bound
`retryCount < maxRetries` carried as the structurally decreasing count
`retriesLeft = maxRetries - retryCount` of retries still allowed: when retries
remain, the continuation of the body is the recursive call at
`retryCount + 1`; at the ceiling there is none. -/
def writeBatchGo (env : Env) (batch : List Msg) :
    Nat → Nat → SinkState → WriteResult × SinkState × List Event
  | 0, retryCount, st => writeBatchBody env batch retryCount none st
  | rl + 1, retryCount, st =>
    writeBatchBody env batch retryCount
      (some (writeBatchGo env batch rl (retryCount + 1))) st

/-- `writeBatchWithRetry` at an arbitrary retry count: the guard
`retryCount < maxRetries` of the source is equivalent to
`maxRetries - retryCount > 0`, which `writeBatchGo` consumes structurally. -/
def writeBatchWithRetry (env : Env) (st : SinkState) (batch : List Msg)
    (retryCount : Nat) : WriteResult × SinkState × List Event :=
  writeBatchGo env batch (maxRetries - retryCount) retryCount st

/-- Embeds `WriteBatch` (bq-stream.go lines 717-720): delegate to
`writeBatchWithRetry` with retry count 0. -/
def writeBatch (env : Env) (st : SinkState) (batch : List Msg) :
    WriteResult × SinkState × List Event :=
  writeBatchWithRetry env st batch 0

/-- Target configuration fields used in connect-time error messages. -/
structure Conf where
  projectID : String
  datasetID : String
  tableID : String
  deriving DecidableEq, Repr

/-- Oracle for the remote calls of `Connect`: the two client constructors, the
dataset and table metadata lookups, `getDescriptor` on the fetched table
schema, and `NewManagedStream`.  Client handles are identifiers. -/
structure ConnectEnv where
  newClient : Except GoError Nat
  newMWClient : Except GoError Nat
  datasetMeta : Option GoError
  tableMeta : Except GoError Schema
  getDesc : Schema → Except GoError (Schema × Schema)
  newStream : Except GoError Unit

/-- Message wrap of a bigquery client construction failure (line 616). -/
def clientFailMsg : String := "error creating big query client: "

/-- Message wrap of a managed writer client construction failure (line 627). -/
def mwClientFailMsg : String := "error creating BigQuery managed writer client: "

/-- Message of a missing dataset (line 639). -/
def datasetMissingMsg (d : String) : String := "dataset does not exist: " ++ d

/-- Message wrap of a non-404 dataset metadata failure (line 641). -/
def datasetMetaFailMsg : String := "error checking dataset existence: "

/-- Message of a missing table (line 650). -/
def tableMissingMsg (t : String) : String := "table does not exist: " ++ t

/-- Message wrap of a non-404 table metadata failure (line 652). -/
def tableMetaFailMsg : String := "error checking table existence: "

/-- Message wrap of a stream creation failure at connect time (line 669). -/
def streamFailMsg : String := "error creating BigQuery managed stream: "

/-- HTTP status used by the dataset/table existence split (http.StatusNotFound). -/
def statusNotFound : Nat := 404

/-- Embeds `Connect` (bq-stream.go lines 610-686) as one atomic
transformation under the exclusive lock.  Each step can fail; deferred
cleanup closes the already-opened handles in LIFO order before the error
propagates, and the five session fields are assigned only after every step
succeeded.  Metadata-client invocations (dataset and table lookup) are
recorded as events. -/
def connect (conf : Conf) (env : ConnectEnv) (st : SinkState) :
    Option GoError × SinkState × List Event :=
  match env.newClient with
  | Except.error e => (some (wrapErr clientFailMsg e), st, [])
  | Except.ok c =>
    match env.newMWClient with
    | Except.error e =>
      (some (wrapErr mwClientFailMsg e), st, [Event.clientClosed])
    | Except.ok mw =>
      match env.datasetMeta with
      | some e =>
        let e' :=
          if hasStatusCode e statusNotFound then
            plainErr (datasetMissingMsg conf.datasetID)
          else wrapErr datasetMetaFailMsg e
        (some e', st,
          [Event.metadataFetch, Event.mwClientClosed, Event.clientClosed])
      | none =>
        match env.tableMeta with
        | Except.error e =>
          let e' :=
            if hasStatusCode e statusNotFound then
              plainErr (tableMissingMsg conf.tableID)
            else wrapErr tableMetaFailMsg e
          (some e', st,
            [Event.metadataFetch, Event.metadataFetch,
              Event.mwClientClosed, Event.clientClosed])
        | Except.ok schema =>
          match env.getDesc schema with
          | Except.error e =>
            (some e, st,
              [Event.metadataFetch, Event.metadataFetch,
                Event.mwClientClosed, Event.clientClosed])
          | Except.ok (md, dp) =>
            match env.newStream with
            | Except.error e =>
              (some (wrapErr streamFailMsg e), st,
                [Event.metadataFetch, Event.metadataFetch,
                  Event.mwClientClosed, Event.clientClosed])
            | Except.ok _ =>
              (none,
                { st with
                  client := some c
                  mwClient := some mw
                  managedStream := some ⟨some dp⟩
                  messageDescriptor := some md
                  descriptorProto := some dp },
                [Event.metadataFetch, Event.metadataFetch])

/-- Embeds `Close` (bq-stream.go lines 927-943) as one atomic transformation
under the exclusive lock.  This is translated literally from the source: the
first branch closes and nils `client`; the second branch closes `mwClient`
but assigns `g.client = nil` (bq-stream.go line 935); the third branch closes
and nils `managedStream`; the returned error is always nil. -/
def closeSink (st : SinkState) : Option GoError × SinkState × List Event :=
  let p1 :=
    match st.client with
    | some _ => ({ st with client := none }, [Event.clientClosed])
    | none => (st, ([] : List Event))
  let p2 :=
    match p1.1.mwClient with
    | some _ => ({ p1.1 with client := none }, [Event.mwClientClosed])
    | none => (p1.1, ([] : List Event))
  let p3 :=
    match p2.1.managedStream with
    | some _ => ({ p2.1 with managedStream := none }, [Event.streamClosed])
    | none => (p2.1, ([] : List Event))
  (none, p3.1, p1.2 ++ p2.2 ++ p3.2)

/-- Iterates `reconnect` n times; `ns k` is the outcome of the stream
creation of the k-th reconnect.  Errors between steps are ignored so the
statement can require all steps to succeed through a hypothesis. -/
def reconnectN (ns : Nat → Except GoError Unit) (st : SinkState) :
    Nat → SinkState × List Event
  | 0 => (st, [])
  | n + 1 =>
    let prev := reconnectN ns st n
    let step := reconnect (ns n) prev.1
    (step.2.1, prev.2 ++ step.2.2)

/-- Recognizes a conversion-pass event. -/
def isConvertEv : Event → Bool
  | Event.convertPass => true
  | _ => false

/-- Recognizes an append-call event. -/
def isAppendEv : Event → Bool
  | Event.appendCall _ => true
  | _ => false

/-- Recognizes a reconnect-attempt event. -/
def isReconnectEv : Event → Bool
  | Event.reconnectCall => true
  | _ => false

/-- Recognizes a stream-open event. -/
def isOpenEv : Event → Bool
  | Event.streamOpened _ => true
  | _ => false

/-- Recognizes a metadata-client invocation event. -/
def isMetaEv : Event → Bool
  | Event.metadataFetch => true
  | _ => false

/-- Recognizes a client-close event. -/
def isClientClosedEv : Event → Bool
  | Event.clientClosed => true
  | _ => false

/-- Recognizes a managed-writer-client-close event. -/
def isMwClientClosedEv : Event → Bool
  | Event.mwClientClosed => true
  | _ => false

/-- Number of conversion passes in a trace. -/
def countConverts (tr : List Event) : Nat := tr.countP isConvertEv

/-- Number of append calls in a trace. -/
def countAppends (tr : List Event) : Nat := tr.countP isAppendEv

/-- Number of reconnect attempts in a trace. -/
def countReconnects (tr : List Event) : Nat := tr.countP isReconnectEv

/-- Number of stream opens in a trace. -/
def countOpens (tr : List Event) : Nat := tr.countP isOpenEv

/-- Number of metadata-client invocations in a trace. -/
def countMetaFetches (tr : List Event) : Nat := tr.countP isMetaEv

/-- Number of client closes in a trace. -/
def countClientCloses (tr : List Event) : Nat := tr.countP isClientClosedEv

/-- Number of managed-writer client closes in a trace. -/
def countMwClientCloses (tr : List Event) : Nat := tr.countP isMwClientClosedEv

/-- The spec's itemized-failure account, written from the spec's words: the
failures are the conversion-failing messages keyed by their original batch
index, in order. -/
def specFailures (env : ConvEnv) (batch : List Msg) : List (Nat × GoError) :=
  batch.enum.filterMap fun p =>
    match convertOne env p.2 with
    | Except.error e => some (p.1, e)
    | Except.ok _ => none

/-- The spec's surviving-row account, written from the spec's words: the
successfully converted rows in their original relative order. -/
def specRows (env : ConvEnv) (batch : List Msg) : List Row :=
  batch.filterMap fun m =>
    match convertOne env m with
    | Except.ok r => some r
    | Except.error _ => none

/-- The session state after one successful reconnect: only the stream handle
changes, rebound to the cached schema descriptor. -/
def reconnectedState (st : SinkState) : SinkState :=
  { st with managedStream := some ⟨st.descriptorProto⟩ }

theorem convertLoop_eq_enumFrom (env : ConvEnv) (l : List Msg) (i : Nat) :
    convertLoop env l i =
      ((List.enumFrom i l).filterMap fun p =>
          match convertOne env p.2 with
          | Except.error e => some (p.1, e)
          | Except.ok _ => none,
        l.filterMap fun m =>
          match convertOne env m with
          | Except.ok r => some r
          | Except.error _ => none) := by
  induction l generalizing i with
  | nil => simp [convertLoop]
  | cons m ms ih =>
    simp only [convertLoop, List.enumFrom, List.filterMap_cons, ih (i + 1)]
    cases convertOne env m <;> simp

theorem convertLoop_eq_spec (env : ConvEnv) (batch : List Msg) :
    convertLoop env batch 0 = (specFailures env batch, specRows env batch) := by
  rw [convertLoop_eq_enumFrom]
  rfl

theorem convertLoop_length (env : ConvEnv) (batch : List Msg) :
    (convertLoop env batch 0).1.length + (convertLoop env batch 0).2.length =
      batch.length := by
  have h : ∀ (l : List Msg) (i : Nat),
      (convertLoop env l i).1.length + (convertLoop env l i).2.length =
        l.length := by
    intro l
    induction l with
    | nil => intro i; simp [convertLoop]
    | cons m ms ih =>
      intro i
      have h2 := ih (i + 1)
      simp only [convertLoop, List.length_cons]
      cases convertOne env m <;> simp [List.length_cons] <;> omega
  exact h batch 0

theorem go_notConnected (env : Env) (batch : List Msg) (fuel r : Nat)
    (st : SinkState) (hms : st.managedStream = none) :
    writeBatchGo env batch fuel r st = (WriteResult.notConnected, st, []) := by
  cases fuel <;> simp [writeBatchGo, writeBatchBody, hms]

theorem go_terminal_fail (env : Env) (batch : List Msg) (fuel r : Nat)
    (st : SinkState) (s : MWStream) (e : GoError)
    (es : List (Nat × GoError)) (rs : List Row)
    (hms : st.managedStream = some s)
    (hc : convertLoop env.conv batch 0 = (es, rs))
    (hrs : rs ≠ [])
    (he : outcomeErr (env.attempts r) = some e)
    (hstop : fuel = 0 ∨ isReconnectableError (some e) = false) :
    writeBatchGo env batch fuel r st =
      (WriteResult.appendError e, st,
        [Event.convertPass, Event.appendCall rs]) := by
  cases ha : env.attempts r with
  | appendFail e' =>
    rw [ha] at he
    obtain rfl : e' = e := Option.some.inj he
    rcases hstop with rfl | hnr
    · simp [writeBatchGo, writeBatchBody, hms, hc, hrs, ha]
    · cases fuel <;> simp [writeBatchGo, writeBatchBody, hms, hc, hrs, ha, hnr]
  | ackFail e' =>
    rw [ha] at he
    obtain rfl : e' = e := Option.some.inj he
    rcases hstop with rfl | hnr
    · simp [writeBatchGo, writeBatchBody, hms, hc, hrs, ha]
    · cases fuel <;> simp [writeBatchGo, writeBatchBody, hms, hc, hrs, ha, hnr]
  | ackOk o =>
    rw [ha] at he
    exact absurd he (by simp [outcomeErr])

theorem go_retry_step (env : Env) (batch : List Msg) (rl r : Nat)
    (st : SinkState) (s : MWStream) (e : GoError)
    (es : List (Nat × GoError)) (rs : List Row)
    (hms : st.managedStream = some s)
    (hc : convertLoop env.conv batch 0 = (es, rs))
    (hrs : rs ≠ [])
    (he : outcomeErr (env.attempts r) = some e)
    (hrec : isReconnectableError (some e) = true)
    (hns : env.newStream r = Except.ok ()) :
    writeBatchGo env batch (rl + 1) r st =
      ((writeBatchGo env batch rl (r + 1) (reconnectedState st)).1,
        (writeBatchGo env batch rl (r + 1) (reconnectedState st)).2.1,
        Event.convertPass :: Event.appendCall rs :: Event.reconnectCall ::
          Event.streamClosed :: Event.streamOpened st.descriptorProto ::
          (writeBatchGo env batch rl (r + 1) (reconnectedState st)).2.2) := by
  cases ha : env.attempts r with
  | appendFail e' =>
    rw [ha] at he
    obtain rfl : e' = e := Option.some.inj he
    simp [writeBatchGo, writeBatchBody, hms, hc, hrs, ha, hrec, hns,
      reconnect, reconnectedState]
  | ackFail e' =>
    rw [ha] at he
    obtain rfl : e' = e := Option.some.inj he
    simp [writeBatchGo, writeBatchBody, hms, hc, hrs, ha, hrec, hns,
      reconnect, reconnectedState]
  | ackOk o =>
    rw [ha] at he
    exact absurd he (by simp [outcomeErr])

theorem go_reconnect_fail (env : Env) (batch : List Msg) (rl r : Nat)
    (st : SinkState) (s : MWStream) (e re : GoError)
    (es : List (Nat × GoError)) (rs : List Row)
    (hms : st.managedStream = some s)
    (hc : convertLoop env.conv batch 0 = (es, rs))
    (hrs : rs ≠ [])
    (he : outcomeErr (env.attempts r) = some e)
    (hrec : isReconnectableError (some e) = true)
    (hns : env.newStream r = Except.error re) :
    writeBatchGo env batch (rl + 1) r st =
      (WriteResult.reconnectFailed (wrapErr newStreamFailMsg re),
        { st with managedStream := none },
        [Event.convertPass, Event.appendCall rs, Event.reconnectCall,
          Event.streamClosed]) := by
  cases ha : env.attempts r with
  | appendFail e' =>
    rw [ha] at he
    obtain rfl : e' = e := Option.some.inj he
    simp [writeBatchGo, writeBatchBody, hms, hc, hrs, ha, hrec, hns,
      reconnect]
  | ackFail e' =>
    rw [ha] at he
    obtain rfl : e' = e := Option.some.inj he
    simp [writeBatchGo, writeBatchBody, hms, hc, hrs, ha, hrec, hns,
      reconnect]
  | ackOk o =>
    rw [ha] at he
    exact absurd he (by simp [outcomeErr])

theorem go_ack_mismatch (env : Env) (batch : List Msg) (fuel r : Nat)
    (st : SinkState) (s : MWStream) (o : Int)
    (es : List (Nat × GoError)) (rs : List Row)
    (hms : st.managedStream = some s)
    (hc : convertLoop env.conv batch 0 = (es, rs))
    (hrs : rs ≠ [])
    (ha : env.attempts r = Outcome.ackOk o)
    (ho : o ≠ NoStreamOffset) :
    writeBatchGo env batch fuel r st =
      (WriteResult.offsetMismatch o, st,
        [Event.convertPass, Event.appendCall rs]) := by
  cases fuel <;> simp [writeBatchGo, writeBatchBody, hms, hc, hrs, ha, ho]

theorem go_ack_ok (env : Env) (batch : List Msg) (fuel r : Nat)
    (st : SinkState) (s : MWStream)
    (es : List (Nat × GoError)) (rs : List Row)
    (hms : st.managedStream = some s)
    (hc : convertLoop env.conv batch 0 = (es, rs))
    (hrs : rs ≠ [])
    (ha : env.attempts r = Outcome.ackOk NoStreamOffset) :
    writeBatchGo env batch fuel r st =
      (if es = [] then WriteResult.success else WriteResult.batchError es, st,
        [Event.convertPass, Event.appendCall rs]) := by
  cases fuel <;> by_cases hes : es = [] <;>
    simp [writeBatchGo, writeBatchBody, hms, hc, hrs, ha, hes, NoStreamOffset]

theorem go_no_rows (env : Env) (batch : List Msg) (fuel r : Nat)
    (st : SinkState) (s : MWStream) (es : List (Nat × GoError))
    (hms : st.managedStream = some s)
    (hc : convertLoop env.conv batch 0 = (es, [])) :
    writeBatchGo env batch fuel r st =
      (if es = [] then WriteResult.success else WriteResult.batchError es, st,
        [Event.convertPass]) := by
  cases fuel <;> by_cases hes : es = [] <;>
    simp [writeBatchGo, writeBatchBody, hms, hc, hes]

theorem go_converts_eq_opens_succ (env : Env) (batch : List Msg) :
    ∀ (fuel r : Nat) (st : SinkState) (s : MWStream),
      st.managedStream = some s →
      countConverts (writeBatchGo env batch fuel r st).2.2 =
        countOpens (writeBatchGo env batch fuel r st).2.2 + 1 := by
  intro fuel
  induction fuel with
  | zero =>
    intro r st s hms
    rcases hc : convertLoop env.conv batch 0 with ⟨es, rs⟩
    by_cases hrs : rs = []
    · subst hrs
      rw [go_no_rows env batch 0 r st s es hms hc]
      simp [countConverts, countOpens, List.countP_cons, isConvertEv, isOpenEv]
    · cases ha : env.attempts r with
      | appendFail e =>
        rw [go_terminal_fail env batch 0 r st s e es rs hms hc hrs
          (by simp [ha, outcomeErr]) (Or.inl rfl)]
        simp [countConverts, countOpens, List.countP_cons, isConvertEv,
          isOpenEv]
      | ackFail e =>
        rw [go_terminal_fail env batch 0 r st s e es rs hms hc hrs
          (by simp [ha, outcomeErr]) (Or.inl rfl)]
        simp [countConverts, countOpens, List.countP_cons, isConvertEv,
          isOpenEv]
      | ackOk o =>
        by_cases ho : o = NoStreamOffset
        · subst ho
          rw [go_ack_ok env batch 0 r st s es rs hms hc hrs ha]
          simp [countConverts, countOpens, List.countP_cons, isConvertEv,
            isOpenEv]
        · rw [go_ack_mismatch env batch 0 r st s o es rs hms hc hrs ha ho]
          simp [countConverts, countOpens, List.countP_cons, isConvertEv,
            isOpenEv]
  | succ rl ih =>
    intro r st s hms
    rcases hc : convertLoop env.conv batch 0 with ⟨es, rs⟩
    by_cases hrs : rs = []
    · subst hrs
      rw [go_no_rows env batch (rl + 1) r st s es hms hc]
      simp [countConverts, countOpens, List.countP_cons, isConvertEv, isOpenEv]
    · cases ha : env.attempts r with
      | appendFail e =>
        by_cases hrec : isReconnectableError (some e) = true
        · cases hns : env.newStream r with
          | error re =>
            rw [go_reconnect_fail env batch rl r st s e re es rs hms hc hrs
              (by simp [ha, outcomeErr]) hrec hns]
            simp [countConverts, countOpens, List.countP_cons, isConvertEv,
              isOpenEv]
          | ok u =>
            cases u
            rw [go_retry_step env batch rl r st s e es rs hms hc hrs
              (by simp [ha, outcomeErr]) hrec hns]
            have hsub := ih (r + 1) (reconnectedState st)
              ⟨st.descriptorProto⟩ rfl
            simp only [countConverts, countOpens, List.countP_cons,
              List.countP_append, isConvertEv, isOpenEv] at hsub ⊢
            simp [hsub]
        · rw [go_terminal_fail env batch (rl + 1) r st s e es rs hms hc hrs
            (by simp [ha, outcomeErr])
            (Or.inr (by revert hrec; cases isReconnectableError (some e) <;>
              simp))]
          simp [countConverts, countOpens, List.countP_cons, isConvertEv,
            isOpenEv]
      | ackFail e =>
        by_cases hrec : isReconnectableError (some e) = true
        · cases hns : env.newStream r with
          | error re =>
            rw [go_reconnect_fail env batch rl r st s e re es rs hms hc hrs
              (by simp [ha, outcomeErr]) hrec hns]
            simp [countConverts, countOpens, List.countP_cons, isConvertEv,
              isOpenEv]
          | ok u =>
            cases u
            rw [go_retry_step env batch rl r st s e es rs hms hc hrs
              (by simp [ha, outcomeErr]) hrec hns]
            have hsub := ih (r + 1) (reconnectedState st)
              ⟨st.descriptorProto⟩ rfl
            simp only [countConverts, countOpens, List.countP_cons,
              List.countP_append, isConvertEv, isOpenEv] at hsub ⊢
            simp [hsub]
        · rw [go_terminal_fail env batch (rl + 1) r st s e es rs hms hc hrs
            (by simp [ha, outcomeErr])
            (Or.inr (by revert hrec; cases isReconnectableError (some e) <;>
              simp))]
          simp [countConverts, countOpens, List.countP_cons, isConvertEv,
            isOpenEv]
      | ackOk o =>
        by_cases ho : o = NoStreamOffset
        · subst ho
          rw [go_ack_ok env batch (rl + 1) r st s es rs hms hc hrs ha]
          simp [countConverts, countOpens, List.countP_cons, isConvertEv,
            isOpenEv]
        · rw [go_ack_mismatch env batch (rl + 1) r st s o es rs hms hc hrs
            ha ho]
          simp [countConverts, countOpens, List.countP_cons, isConvertEv,
            isOpenEv]

theorem go_trace_head (env : Env) (batch : List Msg) (fuel r : Nat)
    (st : SinkState) (s : MWStream) (es : List (Nat × GoError))
    (rs : List Row)
    (hms : st.managedStream = some s)
    (hc : convertLoop env.conv batch 0 = (es, rs))
    (hrs : rs ≠ []) :
    ∃ rest, (writeBatchGo env batch fuel r st).2.2 =
      Event.convertPass :: Event.appendCall rs :: rest := by
  cases ha : env.attempts r with
  | appendFail e =>
    by_cases hrec : isReconnectableError (some e) = true
    · cases fuel with
      | zero =>
        rw [go_terminal_fail env batch 0 r st s e es rs hms hc hrs
          (by simp [ha, outcomeErr]) (Or.inl rfl)]
        exact ⟨_, rfl⟩
      | succ rl =>
        cases hns : env.newStream r with
        | error re =>
          rw [go_reconnect_fail env batch rl r st s e re es rs hms hc hrs
            (by simp [ha, outcomeErr]) hrec hns]
          exact ⟨_, rfl⟩
        | ok u =>
          cases u
          rw [go_retry_step env batch rl r st s e es rs hms hc hrs
            (by simp [ha, outcomeErr]) hrec hns]
          exact ⟨_, rfl⟩
    · have hrec' : isReconnectableError (some e) = false := by
        revert hrec; cases isReconnectableError (some e) <;> simp
      rw [go_terminal_fail env batch fuel r st s e es rs hms hc hrs
        (by simp [ha, outcomeErr]) (Or.inr hrec')]
      exact ⟨_, rfl⟩
  | ackFail e =>
    by_cases hrec : isReconnectableError (some e) = true
    · cases fuel with
      | zero =>
        rw [go_terminal_fail env batch 0 r st s e es rs hms hc hrs
          (by simp [ha, outcomeErr]) (Or.inl rfl)]
        exact ⟨_, rfl⟩
      | succ rl =>
        cases hns : env.newStream r with
        | error re =>
          rw [go_reconnect_fail env batch rl r st s e re es rs hms hc hrs
            (by simp [ha, outcomeErr]) hrec hns]
          exact ⟨_, rfl⟩
        | ok u =>
          cases u
          rw [go_retry_step env batch rl r st s e es rs hms hc hrs
            (by simp [ha, outcomeErr]) hrec hns]
          exact ⟨_, rfl⟩
    · have hrec' : isReconnectableError (some e) = false := by
        revert hrec; cases isReconnectableError (some e) <;> simp
      rw [go_terminal_fail env batch fuel r st s e es rs hms hc hrs
        (by simp [ha, outcomeErr]) (Or.inr hrec')]
      exact ⟨_, rfl⟩
  | ackOk o =>
    by_cases ho : o = NoStreamOffset
    · subst ho
      rw [go_ack_ok env batch fuel r st s es rs hms hc hrs ha]
      exact ⟨_, rfl⟩
    · rw [go_ack_mismatch env batch fuel r st s o es rs hms hc hrs ha ho]
      exact ⟨_, rfl⟩

/-- Is the remote call outcome a success? -/
def isOkE {α : Type} : Except GoError α → Bool
  | Except.ok _ => true
  | Except.error _ => false

/-- Fixture: a reconnect-worthy error carrying the aborted status. -/
def abortedErr : GoError :=
  { grpcCode := some Code.aborted, apiWrappedCode := none,
    googleapiCode := none, msg := "rpc aborted" }

/-- Fixture: a fatal error carrying the permission-denied status. -/
def deniedErr : GoError :=
  { grpcCode := some Code.permissionDenied, apiWrappedCode := none,
    googleapiCode := none, msg := "permission denied" }

/-- Fixture: a 404 googleapi error. -/
def notFoundErr : GoError :=
  { grpcCode := none, apiWrappedCode := none,
    googleapiCode := some 404, msg := "not found" }

/-- Fixture: a message that converts successfully. -/
def okMsg : Msg := { bytes := Except.ok [1] }

/-- Fixture: a message whose byte extraction fails. -/
def badMsg : Msg := { bytes := Except.error deniedErr }

/-- Fixture: identity conversion oracle. -/
def idConv : ConvEnv :=
  { unmarshal := fun b => Except.ok b, marshal := fun b => Except.ok b }

/-- Fixture: a connected sink state. -/
def connectedSt : SinkState :=
  { client := some 1, mwClient := some 2, managedStream := some ⟨some 5⟩,
    messageDescriptor := some 4, descriptorProto := some 5 }

/-- Fixture: a never-connected sink state. -/
def emptySt : SinkState :=
  { client := none, mwClient := none, managedStream := none,
    messageDescriptor := none, descriptorProto := none }

/-- Fixture: every append attempt fails reconnect-worthily; reconnects
succeed. -/
def envAllFail : Env :=
  { conv := idConv, attempts := fun _ => Outcome.appendFail abortedErr,
    newStream := fun _ => Except.ok () }

/-- Fixture: the first append attempt fails with a fatal error. -/
def envFatal : Env :=
  { conv := idConv, attempts := fun _ => Outcome.appendFail deniedErr,
    newStream := fun _ => Except.ok () }

/-- Fixture: every acknowledgement succeeds with the sentinel offset. -/
def envAckGood : Env :=
  { conv := idConv, attempts := fun _ => Outcome.ackOk NoStreamOffset,
    newStream := fun _ => Except.ok () }

/-- Fixture: every acknowledgement succeeds with a non-sentinel offset. -/
def envAckBad : Env :=
  { conv := idConv, attempts := fun _ => Outcome.ackOk 7,
    newStream := fun _ => Except.ok () }

/-- Fixture: one reconnect-worthy acknowledgement failure, then success. -/
def envRetryOnce : Env :=
  { conv := idConv,
    attempts := fun k =>
      if k = 0 then Outcome.ackFail abortedErr
      else Outcome.ackOk NoStreamOffset,
    newStream := fun _ => Except.ok () }

/-- Fixture: connect environment failing at the dataset existence check. -/
def envConnDatasetGone : ConnectEnv :=
  { newClient := Except.ok 1, newMWClient := Except.ok 2,
    datasetMeta := some notFoundErr, tableMeta := Except.ok 9,
    getDesc := fun sch => Except.ok (sch, sch + 1),
    newStream := Except.ok () }

/-- Fixture: fully successful connect environment. -/
def envConnOk : ConnectEnv :=
  { newClient := Except.ok 1, newMWClient := Except.ok 2,
    datasetMeta := none, tableMeta := Except.ok 9,
    getDesc := fun sch => Except.ok (sch, sch + 1),
    newStream := Except.ok () }

/-- Fixture: target configuration. -/
def confW : Conf := { projectID := "p", datasetID := "d", tableID := "t" }

/-- Fixture: every reconnect stream creation succeeds. -/
def nsOk : Nat → Except GoError Unit := fun _ => Except.ok ()

/-- C1: for every batch-append call whose append (or acknowledgement) error is
classified reconnect-worthy on every attempt and whose reconnects succeed,
exactly 2 reconnect attempts are made (3 total append attempts), and the error
of the 3rd failed attempt is returned to the caller unchanged (constructor
`WriteResult.appendError`, the plain `return err` site), not wrapped in the
reconnect-failure wrap. -/
theorem retry_ceiling_two_reconnects_last_error (env : Env) (st : SinkState)
    (batch : List Msg) (s : MWStream) (e0 e1 e2 : GoError)
    (es : List (Nat × GoError)) (rs : List Row)
    (hms : st.managedStream = some s)
    (hc : convertLoop env.conv batch 0 = (es, rs))
    (hrs : rs ≠ [])
    (he0 : outcomeErr (env.attempts 0) = some e0)
    (hr0 : isReconnectableError (some e0) = true)
    (he1 : outcomeErr (env.attempts 1) = some e1)
    (hr1 : isReconnectableError (some e1) = true)
    (he2 : outcomeErr (env.attempts 2) = some e2)
    (hr2 : isReconnectableError (some e2) = true)
    (hn0 : env.newStream 0 = Except.ok ())
    (hn1 : env.newStream 1 = Except.ok ()) :
    (writeBatchWithRetry env st batch 0).1 = WriteResult.appendError e2 ∧
      countReconnects (writeBatchWithRetry env st batch 0).2.2 = 2 ∧
      countAppends (writeBatchWithRetry env st batch 0).2.2 = 3 := by
  have h1 : writeBatchGo env batch 2 0 st = _ :=
    go_retry_step env batch 1 0 st s e0 es rs hms hc hrs he0 hr0 hn0
  have h2 : writeBatchGo env batch 1 1 (reconnectedState st) = _ :=
    go_retry_step env batch 0 1 (reconnectedState st) ⟨st.descriptorProto⟩
      e1 es rs rfl hc hrs he1 hr1 hn1
  have h3 : writeBatchGo env batch 0 2
      (reconnectedState (reconnectedState st)) = _ :=
    go_terminal_fail env batch 0 2 (reconnectedState (reconnectedState st))
      ⟨(reconnectedState st).descriptorProto⟩ e2 es rs rfl hc hrs he2
      (Or.inl rfl)
  have hw : writeBatchWithRetry env st batch 0 = writeBatchGo env batch 2 0 st :=
    rfl
  rw [hw, h1]
  simp only [Nat.zero_add]
  rw [h2]
  simp only [Nat.add_eq, Nat.add_zero]
  rw [h3]
  simp [countReconnects, countAppends, List.countP_cons, List.countP_append,
    isReconnectEv, isAppendEv]

/-- C1 witness: the retry ceiling at a concrete environment where every
attempt aborts. -/
theorem retry_ceiling_witness :
    (writeBatchWithRetry envAllFail connectedSt [okMsg] 0).1 =
        WriteResult.appendError abortedErr ∧
      countReconnects
        (writeBatchWithRetry envAllFail connectedSt [okMsg] 0).2.2 = 2 ∧
      countAppends
        (writeBatchWithRetry envAllFail connectedSt [okMsg] 0).2.2 = 3 :=
  retry_ceiling_two_reconnects_last_error envAllFail connectedSt [okMsg]
    ⟨some 5⟩ abortedErr abortedErr abortedErr [] [[1]]
    rfl (by decide) (by decide) rfl (by decide) rfl (by decide) rfl
    (by decide) rfl rfl

/-- C2: an error is classified reconnect-worthy exactly when it carries one of
the four transport status codes, or is a structured API error whose wrapped
cause carries one of them, or its description matches the session-TTL or
server-shutdown pattern; every other error propagates to the caller unchanged
with zero reconnect attempts. -/
theorem reconnect_classification_complete :
    (∀ e : GoError,
        isReconnectableError (some e) = true ↔ specReconnectWorthy e) ∧
      ∀ (env : Env) (st : SinkState) (batch : List Msg) (r : Nat)
        (s : MWStream) (e : GoError) (es : List (Nat × GoError))
        (rs : List Row),
        st.managedStream = some s →
        convertLoop env.conv batch 0 = (es, rs) →
        rs ≠ [] →
        outcomeErr (env.attempts r) = some e →
        isReconnectableError (some e) = false →
        (writeBatchWithRetry env st batch r).1 = WriteResult.appendError e ∧
          countReconnects (writeBatchWithRetry env st batch r).2.2 = 0 := by
  refine ⟨isReconnectableError_iff_spec, ?_⟩
  intro env st batch r s e es rs hms hc hrs he hfatal
  have h := go_terminal_fail env batch (maxRetries - r) r st s e es rs hms hc
    hrs he (Or.inr hfatal)
  have hw : writeBatchWithRetry env st batch r =
      writeBatchGo env batch (maxRetries - r) r st := rfl
  rw [hw, h]
  simp [countReconnects, List.countP_cons, isReconnectEv]

/-- C2 witness: a permission-denied append failure propagates unchanged with
zero reconnects. -/
theorem reconnect_classification_witness :
    (writeBatchWithRetry envFatal connectedSt [okMsg] 0).1 =
        WriteResult.appendError deniedErr ∧
      countReconnects
        (writeBatchWithRetry envFatal connectedSt [okMsg] 0).2.2 = 0 :=
  reconnect_classification_complete.2 envFatal connectedSt [okMsg] 0
    ⟨some 5⟩ deniedErr [] [[1]] rfl (by decide) (by decide) rfl (by decide)

/-- C3: a batch append with no active write session (nil managed-stream
handle) returns the framework's not-connected error immediately, with an
empty event trace: no conversion, no append call, no nil dereference. -/
theorem write_without_session_notConnected (env : Env) (st : SinkState)
    (batch : List Msg) (r : Nat)
    (hms : st.managedStream = none) :
    writeBatchWithRetry env st batch r =
      (WriteResult.notConnected, st, []) :=
  go_notConnected env batch (maxRetries - r) r st hms

/-- C3 witness: the not-connected guard at a concrete never-connected state. -/
theorem write_without_session_witness :
    writeBatchWithRetry envAckGood emptySt [okMsg] 0 =
      (WriteResult.notConnected, emptySt, []) :=
  write_without_session_notConnected envAckGood emptySt [okMsg] 0 rfl

/-- C4: for a batch of K messages of which M fail conversion, the accumulated
batch error holds exactly the M failures keyed by original index and the
append receives exactly the K−M surviving rows in original relative order
(the conversion loop equals the spec-side enumeration account, and the lengths
add up to K); when zero rows survive, the append step is skipped entirely (the
trace holds no append call) and the accumulated per-item errors (or nil
success) are returned; when rows survive and the append and acknowledgement
succeed at the sentinel offset, the returned batch result is exactly the
accumulated per-item error list (or nil success when no message failed); and
the trace starts with the single append call carrying exactly the surviving
rows. -/
theorem partial_failure_accounting :
    (∀ (cenv : ConvEnv) (batch : List Msg),
        convertLoop cenv batch 0 =
          (specFailures cenv batch, specRows cenv batch)) ∧
      (∀ (cenv : ConvEnv) (batch : List Msg),
        (specFailures cenv batch).length + (specRows cenv batch).length =
          batch.length) ∧
      (∀ (env : Env) (st : SinkState) (batch : List Msg) (r : Nat)
          (s : MWStream) (es : List (Nat × GoError)),
        st.managedStream = some s →
        convertLoop env.conv batch 0 = (es, []) →
        writeBatchWithRetry env st batch r =
            (if es = [] then WriteResult.success
              else WriteResult.batchError es, st, [Event.convertPass]) ∧
          countAppends (writeBatchWithRetry env st batch r).2.2 = 0) ∧
      (∀ (env : Env) (st : SinkState) (batch : List Msg) (r : Nat)
          (s : MWStream) (es : List (Nat × GoError)) (rs : List Row),
        st.managedStream = some s →
        convertLoop env.conv batch 0 = (es, rs) →
        rs ≠ [] →
        env.attempts r = Outcome.ackOk NoStreamOffset →
        (writeBatchWithRetry env st batch r).1 =
          (if es = [] then WriteResult.success
            else WriteResult.batchError es) ∧
          (writeBatchWithRetry env st batch r).1 =
            (if specFailures env.conv batch = [] then WriteResult.success
              else WriteResult.batchError (specFailures env.conv batch))) ∧
      ∀ (env : Env) (st : SinkState) (batch : List Msg) (r : Nat)
          (s : MWStream) (es : List (Nat × GoError)) (rs : List Row),
        st.managedStream = some s →
        convertLoop env.conv batch 0 = (es, rs) →
        rs ≠ [] →
        ∃ rest, (writeBatchWithRetry env st batch r).2.2 =
          Event.convertPass ::
            Event.appendCall (specRows env.conv batch) :: rest := by
  refine ⟨convertLoop_eq_spec, ?_, ?_, ?_, ?_⟩
  · intro cenv batch
    have h := convertLoop_length cenv batch
    rw [convertLoop_eq_spec] at h
    exact h
  · intro env st batch r s es hms hc
    have h := go_no_rows env batch (maxRetries - r) r st s es hms hc
    have hw : writeBatchWithRetry env st batch r =
        writeBatchGo env batch (maxRetries - r) r st := rfl
    rw [hw, h]
    refine ⟨rfl, ?_⟩
    by_cases hes : es = [] <;>
      simp [hes, countAppends, List.countP_cons, isAppendEv]
  · intro env st batch r s es rs hms hc hrs ha
    have hspec := convertLoop_eq_spec env.conv batch
    rw [hc] at hspec
    have hfails : es = specFailures env.conv batch :=
      ((Prod.mk.injEq _ _ _ _).mp hspec).1
    have h := go_ack_ok env batch (maxRetries - r) r st s es rs hms hc hrs ha
    have hw : writeBatchWithRetry env st batch r =
        writeBatchGo env batch (maxRetries - r) r st := rfl
    rw [hw, h]
    exact ⟨rfl, by rw [← hfails]⟩
  · intro env st batch r s es rs hms hc hrs
    have hspec := convertLoop_eq_spec env.conv batch
    rw [hc] at hspec
    have hrows : rs = specRows env.conv batch :=
      ((Prod.mk.injEq _ _ _ _).mp hspec).2
    have h := go_trace_head env batch (maxRetries - r) r st s es rs hms hc hrs
    rw [hrows] at h
    exact h

/-- C4 witness: accounting at a concrete two-message batch with one
conversion failure, an all-failing batch, a partial success reporting the
itemized failure after a sentinel acknowledgement, and a surviving-rows
append. -/
theorem partial_failure_accounting_witness :
    convertLoop idConv [okMsg, badMsg] 0 =
        (specFailures idConv [okMsg, badMsg],
          specRows idConv [okMsg, badMsg]) ∧
      writeBatchWithRetry envAckGood connectedSt [badMsg] 0 =
        (WriteResult.batchError [(0, deniedErr)], connectedSt,
          [Event.convertPass]) ∧
      (writeBatchWithRetry envAckGood connectedSt [okMsg, badMsg] 0).1 =
        WriteResult.batchError [(1, deniedErr)] ∧
      ∃ rest, (writeBatchWithRetry envAckGood connectedSt [okMsg, badMsg]
          0).2.2 =
        Event.convertPass ::
          Event.appendCall (specRows idConv [okMsg, badMsg]) :: rest := by
  refine ⟨partial_failure_accounting.1 idConv [okMsg, badMsg], ?_, ?_, ?_⟩
  · have h := (partial_failure_accounting.2.2.1 envAckGood connectedSt
      [badMsg] 0 ⟨some 5⟩ [(0, deniedErr)] rfl (by decide)).1
    simpa using h
  · have h := (partial_failure_accounting.2.2.2.1 envAckGood connectedSt
      [okMsg, badMsg] 0 ⟨some 5⟩ [(1, deniedErr)] [[1]] rfl (by decide)
      (by decide) rfl).1
    simpa using h
  · exact partial_failure_accounting.2.2.2.2 envAckGood connectedSt
      [okMsg, badMsg] 0 ⟨some 5⟩ [(1, deniedErr)] [[1]] rfl (by decide)
      (by decide)

/-- C5: a successful append whose acknowledged offset differs from the
no-explicit-offset sentinel returns the offset-mismatch error, fatal for the
call: zero reconnect attempts are made. -/
theorem offset_mismatch_fatal (env : Env) (st : SinkState) (batch : List Msg)
    (r : Nat) (s : MWStream) (o : Int) (es : List (Nat × GoError))
    (rs : List Row)
    (hms : st.managedStream = some s)
    (hc : convertLoop env.conv batch 0 = (es, rs))
    (hrs : rs ≠ [])
    (ha : env.attempts r = Outcome.ackOk o)
    (ho : o ≠ NoStreamOffset) :
    (writeBatchWithRetry env st batch r).1 = WriteResult.offsetMismatch o ∧
      countReconnects (writeBatchWithRetry env st batch r).2.2 = 0 := by
  have h := go_ack_mismatch env batch (maxRetries - r) r st s o es rs hms hc
    hrs ha ho
  have hw : writeBatchWithRetry env st batch r =
      writeBatchGo env batch (maxRetries - r) r st := rfl
  rw [hw, h]
  simp [countReconnects, List.countP_cons, isReconnectEv]

/-- C5 witness: offset 7 against the sentinel at a concrete environment. -/
theorem offset_mismatch_fatal_witness :
    (writeBatchWithRetry envAckBad connectedSt [okMsg] 0).1 =
        WriteResult.offsetMismatch 7 ∧
      countReconnects
        (writeBatchWithRetry envAckBad connectedSt [okMsg] 0).2.2 = 0 :=
  offset_mismatch_fatal envAckBad connectedSt [okMsg] 0 ⟨some 5⟩ 7 [] [[1]]
    rfl (by decide) (by decide) rfl (by decide)

/-- C6: any number of consecutive successful reconnects leaves the session
bound to a stream carrying exactly the schema descriptor cached at the last
successful connect, never touches the cached descriptor, never invokes the
metadata client, and every stream opened along the way is bound to that same
cached descriptor. -/
theorem reconnect_reuses_cached_schema (ns : Nat → Except GoError Unit)
    (st : SinkState) (n : Nat)
    (h : ∀ k, k < n + 1 → ns k = Except.ok ()) :
    (reconnectN ns st (n + 1)).1.managedStream =
        some ⟨st.descriptorProto⟩ ∧
      (reconnectN ns st (n + 1)).1.descriptorProto = st.descriptorProto ∧
      countMetaFetches (reconnectN ns st (n + 1)).2 = 0 ∧
      ∀ sch, Event.streamOpened sch ∈ (reconnectN ns st (n + 1)).2 →
        sch = st.descriptorProto := by
  induction n with
  | zero =>
    have h0 : ns 0 = Except.ok () := h 0 (by omega)
    cases hms : st.managedStream <;>
      simp [reconnectN, reconnect, h0, hms, countMetaFetches,
        List.countP_cons, List.countP_append, isMetaEv]
  | succ m ih =>
    have hm : ∀ k, k < m + 1 → ns k = Except.ok () :=
      fun k hk => h k (by omega)
    have hs : ns (m + 1) = Except.ok () := h (m + 1) (by omega)
    obtain ⟨ih1, ih2, ih3, ih4⟩ := ih hm
    have hstep : reconnectN ns st (m + 1 + 1) =
        (((reconnect (ns (m + 1)) (reconnectN ns st (m + 1)).1).2.1),
          (reconnectN ns st (m + 1)).2 ++
            (reconnect (ns (m + 1)) (reconnectN ns st (m + 1)).1).2.2) := rfl
    rw [hstep]
    rw [hs]
    refine ⟨?_, ?_, ?_, ?_⟩
    · simp [reconnect, ih1, ih2]
    · simp [reconnect, ih2]
    · simp only [countMetaFetches, List.countP_append]
      have h1 : List.countP isMetaEv (reconnectN ns st (m + 1)).2 = 0 := ih3
      rw [h1]
      simp [reconnect, ih1, List.countP_cons, isMetaEv]
    · intro sch hmem
      simp [reconnect, ih1] at hmem
      rcases hmem with hmem | hmem
      · exact ih4 sch hmem
      · rw [hmem, ih2]

/-- C6 witness: two consecutive successful reconnects at a concrete state. -/
theorem reconnect_reuses_cached_schema_witness :
    (reconnectN nsOk connectedSt 2).1.managedStream =
        some ⟨connectedSt.descriptorProto⟩ ∧
      (reconnectN nsOk connectedSt 2).1.descriptorProto =
        connectedSt.descriptorProto ∧
      countMetaFetches (reconnectN nsOk connectedSt 2).2 = 0 ∧
      ∀ sch, Event.streamOpened sch ∈ (reconnectN nsOk connectedSt 2).2 →
        sch = connectedSt.descriptorProto :=
  reconnect_reuses_cached_schema nsOk connectedSt 1 (fun k _ => rfl)

/-- C7 counterexample: the claim that the per-message conversion is not
repeated on a retry is false.  With one reconnect-worthy acknowledgement
failure followed by a successful retry, the recursive call re-runs the whole
procedure: the conversion pass executes twice for the single successful
write, not once. -/
theorem retry_repeats_conversion_cex :
    (writeBatchWithRetry envRetryOnce connectedSt [okMsg] 0).1 =
        WriteResult.success ∧
      countReconnects
        (writeBatchWithRetry envRetryOnce connectedSt [okMsg] 0).2.2 = 1 ∧
      countConverts
        (writeBatchWithRetry envRetryOnce connectedSt [okMsg] 0).2.2 = 2 := by
  decide

/-- C7 amended: after a successful reconnect the retried attempt re-runs the
entire batch procedure against the new session, including the per-message
conversion: the conversion pass executes exactly once per attempt, i.e. once
more than the number of successfully opened replacement streams. -/
theorem conversion_runs_once_per_attempt (env : Env) (st : SinkState)
    (batch : List Msg) (r : Nat) (s : MWStream)
    (hms : st.managedStream = some s) :
    countConverts (writeBatchWithRetry env st batch r).2.2 =
      countOpens (writeBatchWithRetry env st batch r).2.2 + 1 :=
  go_converts_eq_opens_succ env batch (maxRetries - r) r st s hms

/-- C7 amended witness: the conversion-per-attempt account at a concrete
retried run. -/
theorem conversion_runs_once_per_attempt_witness :
    countConverts (writeBatchWithRetry envRetryOnce connectedSt [okMsg] 0).2.2 =
      countOpens (writeBatchWithRetry envRetryOnce connectedSt [okMsg] 0).2.2 +
        1 :=
  conversion_runs_once_per_attempt envRetryOnce connectedSt [okMsg] 0
    ⟨some 5⟩ rfl

/-- C8: a connect attempt that fails leaves every session-state field
untouched and has closed exactly the handles already opened (the metadata
client when its construction succeeded, the managed-writer client when both
constructions succeeded); only a fully successful connect installs the client,
the write client, the stream bound to the derived descriptor, and the two
cached schema descriptors, together, closing nothing. -/
theorem connect_cleanup_atomic_install (conf : Conf) (env : ConnectEnv)
    (st : SinkState) :
    (∀ e, (connect conf env st).1 = some e →
        (connect conf env st).2.1 = st ∧
          countClientCloses (connect conf env st).2.2 =
            (if isOkE env.newClient then 1 else 0) ∧
          countMwClientCloses (connect conf env st).2.2 =
            (if isOkE env.newClient && isOkE env.newMWClient then 1
              else 0)) ∧
      ((connect conf env st).1 = none →
        ∃ c mw sch md dp,
          env.newClient = Except.ok c ∧ env.newMWClient = Except.ok mw ∧
            env.datasetMeta = none ∧ env.tableMeta = Except.ok sch ∧
            env.getDesc sch = Except.ok (md, dp) ∧
            env.newStream = Except.ok () ∧
            (connect conf env st).2.1 =
              { st with
                client := some c
                mwClient := some mw
                managedStream := some ⟨some dp⟩
                messageDescriptor := some md
                descriptorProto := some dp } ∧
            countClientCloses (connect conf env st).2.2 = 0 ∧
            countMwClientCloses (connect conf env st).2.2 = 0) := by
  cases hc : env.newClient with
  | error e0 =>
    refine ⟨fun e he => ?_, fun hn => ?_⟩
    · simp [connect, hc, isOkE, countClientCloses, countMwClientCloses,
        List.countP_nil, List.countP_cons, isClientClosedEv,
        isMwClientClosedEv]
    · simp [connect, hc] at hn
  | ok c =>
    cases hmw : env.newMWClient with
    | error e0 =>
      refine ⟨fun e he => ?_, fun hn => ?_⟩
      · simp [connect, hc, hmw, isOkE, countClientCloses,
          countMwClientCloses, List.countP_nil, List.countP_cons,
          isClientClosedEv, isMwClientClosedEv]
      · simp [connect, hc, hmw] at hn
    | ok mw =>
      cases hd : env.datasetMeta with
      | some e0 =>
        refine ⟨fun e he => ?_, fun hn => ?_⟩
        · simp [connect, hc, hmw, hd, isOkE, countClientCloses,
            countMwClientCloses, List.countP_nil, List.countP_cons,
            isClientClosedEv, isMwClientClosedEv, isMetaEv]
        · simp [connect, hc, hmw, hd] at hn
      | none =>
        cases ht : env.tableMeta with
        | error e0 =>
          refine ⟨fun e he => ?_, fun hn => ?_⟩
          · simp [connect, hc, hmw, hd, ht, isOkE, countClientCloses,
              countMwClientCloses, List.countP_nil, List.countP_cons,
              isClientClosedEv, isMwClientClosedEv]
          · simp [connect, hc, hmw, hd, ht] at hn
        | ok sch =>
          cases hg : env.getDesc sch with
          | error e0 =>
            refine ⟨fun e he => ?_, fun hn => ?_⟩
            · simp [connect, hc, hmw, hd, ht, hg, isOkE, countClientCloses,
                countMwClientCloses, List.countP_nil, List.countP_cons,
                isClientClosedEv, isMwClientClosedEv]
            · simp [connect, hc, hmw, hd, ht, hg] at hn
          | ok mddp =>
            rcases mddp with ⟨md, dp⟩
            cases hn : env.newStream with
            | error e0 =>
              refine ⟨fun e he => ?_, fun hnone => ?_⟩
              · simp [connect, hc, hmw, hd, ht, hg, hn, isOkE,
                  countClientCloses, countMwClientCloses, List.countP_nil, List.countP_cons,
                  List.countP_cons, isClientClosedEv, isMwClientClosedEv]
              · simp [connect, hc, hmw, hd, ht, hg, hn] at hnone
            | ok u =>
              cases u
              refine ⟨fun e he => ?_, fun hnone => ?_⟩
              · simp [connect, hc, hmw, hd, ht, hg, hn] at he
              · refine ⟨c, mw, sch, md, dp, rfl, rfl, rfl, rfl, hg, rfl,
                  ?_, ?_, ?_⟩ <;>
                  simp [connect, hc, hmw, hd, ht, hg, hn, countClientCloses,
                    countMwClientCloses, List.countP_nil, List.countP_cons,
                    isClientClosedEv, isMwClientClosedEv]

/-- C8 witness: a connect failing at the dataset existence check leaves the
state untouched and closes both already-opened clients. -/
theorem connect_cleanup_witness :
    (connect confW envConnDatasetGone emptySt).2.1 = emptySt ∧
      countClientCloses (connect confW envConnDatasetGone emptySt).2.2 =
        (if isOkE envConnDatasetGone.newClient then 1 else 0) ∧
      countMwClientCloses (connect confW envConnDatasetGone emptySt).2.2 =
        (if isOkE envConnDatasetGone.newClient &&
            isOkE envConnDatasetGone.newMWClient then 1 else 0) :=
  (connect_cleanup_atomic_install confW envConnDatasetGone emptySt).1
    (plainErr (datasetMissingMsg "d")) (by decide)

/-- C9 evidence: closing a fully connected sink closes all three handles in
order, returns nil, and leaves subsequent appends seeing not-connected (the
stream field is nil) — but the managed-writer client field is not nulled: the
second branch of `Close` assigns `g.client = nil` (bq-stream.go line 935)
instead of `g.mwClient = nil`, so `mwClient` keeps its old handle. -/
theorem close_leaves_mwClient_field_set :
    (closeSink connectedSt).1 = none ∧
      (closeSink connectedSt).2.2 =
        [Event.clientClosed, Event.mwClientClosed, Event.streamClosed] ∧
      (closeSink connectedSt).2.1.client = none ∧
      (closeSink connectedSt).2.1.managedStream = none ∧
      (closeSink connectedSt).2.1.mwClient = some 2 ∧
      (writeBatchWithRetry envAckGood (closeSink connectedSt).2.1 [okMsg]
          0).1 =
        WriteResult.notConnected := by
  decide

/-- C10: when a batch carries both itemized conversion failures and surviving
rows and the acknowledged offset differs from the sentinel, the call returns
only the offset-mismatch error: the accumulated per-item errors are discarded
(the result is never the batch error), because the offset check returns
before the batch-error merge. -/
theorem offset_mismatch_discards_item_errors (env : Env) (st : SinkState)
    (batch : List Msg) (r : Nat) (s : MWStream) (o : Int)
    (es : List (Nat × GoError)) (rs : List Row)
    (hms : st.managedStream = some s)
    (hc : convertLoop env.conv batch 0 = (es, rs))
    (hes : es ≠ [])
    (hrs : rs ≠ [])
    (ha : env.attempts r = Outcome.ackOk o)
    (ho : o ≠ NoStreamOffset) :
    (writeBatchWithRetry env st batch r).1 = WriteResult.offsetMismatch o ∧
      ∀ l, (writeBatchWithRetry env st batch r).1 ≠
        WriteResult.batchError l := by
  have h := go_ack_mismatch env batch (maxRetries - r) r st s o es rs hms hc
    hrs ha ho
  have hw : writeBatchWithRetry env st batch r =
      writeBatchGo env batch (maxRetries - r) r st := rfl
  rw [hw, h]
  simp

/-- C10 witness: a mixed batch (one failure, one surviving row) with a
non-sentinel acknowledged offset loses its itemized errors. -/
theorem offset_mismatch_discards_witness :
    (writeBatchWithRetry envAckBad connectedSt [okMsg, badMsg] 0).1 =
        WriteResult.offsetMismatch 7 ∧
      ∀ l, (writeBatchWithRetry envAckBad connectedSt [okMsg, badMsg] 0).1 ≠
        WriteResult.batchError l :=
  offset_mismatch_discards_item_errors envAckBad connectedSt [okMsg, badMsg]
    0 ⟨some 5⟩ 7 [(1, deniedErr)] [[1]] rfl (by decide) (by decide)
    (by decide) rfl (by decide)
